import Mathlib

/-!
Verification of the ZKTeco iClock attendance parser (`src/parser.ts`,
`src/types.ts`) against its natural-language specification.

The TypeScript source is shallowly embedded: JavaScript string primitives
(`trim`, `split`, `replace`, `Number.parseInt`, `Date` parsing of
local-naive timestamps) are modelled as executable Lean functions over
`List Char`; the runtime's ambient local-timezone offset (what
`Date.prototype.getTimezoneOffset` returns and what `new Date(string)`
uses to interpret a local-naive timestamp) is passed explicitly as the
`serverOffsetMin : Int` parameter.  TypeScript numeric enums are plain
numbers at runtime, so `VerifyType`, `InOutMode` and `WorkCode` are
embedded as `Int` with named constants and explicit member-value sets
(`Object.values` membership on a numeric enum tests against the numeric
values).  `Date` objects are embedded as `Option Int` (epoch
milliseconds; `none` is an Invalid Date).
-/

namespace ZKIClock

/-! ## JavaScript primitive models -/

/-- JS whitespace characters relevant to `String.prototype.trim` /
`parseInt` leading-space skipping (ASCII subset). -/
def isJsSpace (c : Char) : Bool :=
  c = ' ' || c = '\t' || c = '\n' || c = '\r' || c = '\x0b' || c = '\x0c'

/-- JS `String.prototype.trim` (ASCII whitespace model). -/
def jsTrim (s : String) : String :=
  String.mk (((s.data.dropWhile isJsSpace).reverse.dropWhile isJsSpace).reverse)

/-- Core of JS `String.prototype.split` with a single-character separator:
splitting `""` yields `[""]`, separators at the ends yield empty segments. -/
def splitCharAux (c : Char) : List Char → List Char → List String
  | [], acc => [String.mk acc.reverse]
  | x :: xs, acc =>
    if x = c then String.mk acc.reverse :: splitCharAux c xs []
    else splitCharAux c xs (x :: acc)

/-- JS `s.split(sep)` for a one-character separator. -/
def jsSplit (s : String) (c : Char) : List String :=
  splitCharAux c s.data []

/-- JS `s.replace(/\x2f/g, "-")`: replace every slash by a dash. -/
def slashToDash (s : String) : String :=
  String.mk (s.data.map fun c => if c = '/' then '-' else c)

/-- Value of a list of decimal digit characters. -/
def digitsVal (ds : List Char) : Nat :=
  ds.foldl (fun a c => a * 10 + (c.toNat - 48)) 0

/-- JS `Number.parseInt(s, 10)`: skip leading whitespace, optional sign,
read the longest decimal-digit run, ignore everything after it; `none`
models `NaN` (no digits). -/
def jsParseInt (s : String) : Option Int :=
  let core : List Char → Option Int := fun l =>
    let ds := l.takeWhile Char.isDigit
    if ds.isEmpty then none else some ((digitsVal ds : Nat) : Int)
  match s.data.dropWhile isJsSpace with
  | '-' :: rest => (core rest).map (fun n => -n)
  | '+' :: rest => core rest
  | cs => core cs

/-- JS string truthiness for an optional string (`undefined` and `""` are
falsy). -/
def strTruthy : Option String → Bool
  | none => false
  | some s => s ≠ ""

/-- Whether `pre` begins `s` (character-wise). -/
def strStarts (pre s : String) : Bool :=
  pre.data.isPrefixOf s.data

/-! ## Date model

`new Date(str)` for a local-naive `"YYYY-MM-DD HH:mm:ss"` /
`"YYYY-MM-DDTHH:mm:ss"` string is modelled by `jsDateWallMs`, which
returns the wall-clock value in milliseconds *as if it were UTC*; the
actual epoch value of the `Date` is then `wallMs + serverOffsetMin *
60000` where `serverOffsetMin` is the runtime zone's
`getTimezoneOffset()` value (minutes, UTC minus local).  Out-of-shape
strings give `none` (Invalid Date); the model covers the device's
date-time shapes, which is the domain the parser is specified over. -/

/-- Nat from a non-empty all-digit string, else `none`. -/
def parseFullDigits (s : String) : Option Nat :=
  if !s.data.isEmpty && s.data.all Char.isDigit then some (digitsVal s.data)
  else none

/-- Days from civil date (proleptic Gregorian, floor-division form of the
standard days-from-civil algorithm, as in ECMAScript `MakeDay`). -/
def daysFromCivil (y : Int) (m d : Nat) : Int :=
  let yAdj : Int := if m ≤ 2 then y - 1 else y
  let era : Int := Int.fdiv yAdj 400
  let yoe : Int := yAdj - era * 400
  let mp : Nat := (m + 9) % 12
  let doy : Int := ((153 * mp + 2) / 5 + d - 1 : Nat)
  let doe : Int := yoe * 365 + Int.fdiv yoe 4 - Int.fdiv yoe 100 + doy
  era * 146097 + doe - 719468

/-- Split a date-time string into date and time parts at a single `' '`
or `'T'` separator. -/
def splitDateTime (s : String) : Option (String × String) :=
  match jsSplit s ' ' with
  | [d, t] => some (d, t)
  | [x] =>
    match jsSplit x 'T' with
    | [d, t] => some (d, t)
    | _ => none
  | _ => none

/-- Parse `"YYYY-MM-DD"` (already slash-normalized) into year/month/day
with range validation. -/
def parseDatePart (s : String) : Option (Int × Nat × Nat) :=
  match jsSplit s '-' with
  | [ys, ms, ds] =>
    match parseFullDigits ys, parseFullDigits ms, parseFullDigits ds with
    | some y, some mo, some d =>
      if 1 ≤ mo && mo ≤ 12 && 1 ≤ d && d ≤ 31 then some ((y : Int), mo, d)
      else none
    | _, _, _ => none
  | _ => none

/-- Parse `"HH:mm:ss"` (or `"HH:mm"`) into hour/minute/second with range
validation. -/
def parseTimePart (s : String) : Option (Nat × Nat × Nat) :=
  match jsSplit s ':' with
  | [hs, mis, ss] =>
    match parseFullDigits hs, parseFullDigits mis, parseFullDigits ss with
    | some h, some mi, some sec =>
      if h ≤ 23 && mi ≤ 59 && sec ≤ 59 then some (h, mi, sec) else none
    | _, _, _ => none
  | [hs, mis] =>
    match parseFullDigits hs, parseFullDigits mis with
    | some h, some mi =>
      if h ≤ 23 && mi ≤ 59 then some (h, mi, 0) else none
    | _, _ => none
  | _ => none

/-- Wall-clock milliseconds (as-if-UTC) of a local-naive date-time
string; `none` models an Invalid Date. -/
def jsDateWallMs (s : String) : Option Int :=
  match splitDateTime s with
  | none => none
  | some (ds, ts) =>
    match parseDatePart ds, parseTimePart ts with
    | some (y, mo, d), some (h, mi, sec) =>
      some ((daysFromCivil y mo d * 86400 + (h * 3600 + mi * 60 + sec : Nat)) * 1000)
    | _, _ => none

/-- JS `"...".replace(" ", "T")` (first occurrence only), used by the
source's second parsing attempt. -/
def replaceFirstSpaceT : List Char → List Char
  | [] => []
  | c :: cs => if c = ' ' then 'T' :: cs else c :: replaceFirstSpaceT cs

/-! ## Enums (TypeScript numeric enums are numbers at runtime) -/

/-- `VerifyType` runtime representation. -/
abbrev VerifyType := Int

/-- Numeric member values of the `VerifyType` enum
(`Object.values` membership against the numbers). -/
def verifyTypeValues : List Int := [0, 1, 2, 3, 15, 25]

def VerifyType.UNKNOWN : VerifyType := 0
def VerifyType.FINGERPRINT : VerifyType := 1
def VerifyType.PASSWORD : VerifyType := 2
def VerifyType.CARD : VerifyType := 3
def VerifyType.FACE : VerifyType := 15
def VerifyType.PALM : VerifyType := 25

/-- `InOutMode` runtime representation. -/
abbrev InOutMode := Int

/-- Numeric member values of the `InOutMode` enum. -/
def inOutModeValues : List Int := [0, 1, 2, 3, 4, 5]

def InOutMode.CHECK_IN : InOutMode := 0
def InOutMode.CHECK_OUT : InOutMode := 1
def InOutMode.BREAK_OUT : InOutMode := 2
def InOutMode.BREAK_IN : InOutMode := 3
def InOutMode.OT_IN : InOutMode := 4
def InOutMode.OT_OUT : InOutMode := 5

/-- `WorkCode` runtime representation (note: the source casts any parsed
integer into this type without a membership check). -/
abbrev WorkCode := Int

/-- Declared member values of the `WorkCode` enum. -/
def workCodeValues : List Int := [0, 1, 2, 3]

def WorkCode.NORMAL : WorkCode := 0
def WorkCode.OVERTIME : WorkCode := 1
def WorkCode.HOLIDAY : WorkCode := 2
def WorkCode.WEEKEND : WorkCode := 3

/-! ## Data model (`src/types.ts`) -/

/-- One parsed ATTLOG row. `timestamp` is a `Date`: `some` epoch
milliseconds, `none` would be an Invalid Date. -/
structure AttendanceLog where
  userID : String
  timestamp : Option Int
  inOutMode : InOutMode
  verifyType : VerifyType
  workCode : WorkCode
  deviceID : Option Int := none
  reserved : Option (List String) := none
  raw : Option String := none
deriving Repr, DecidableEq

/-- Device status snapshot parsed from the `INFO` query value. -/
structure DeviceInfo where
  serialNumber : String
  model : String := ""
  userCount : Int := 0
  fpCount : Int := 0
  recordCount : Int := 0
  deviceIP : String := ""
  adminCount : Int := 0
  passwordCount : Int := 0
  cardCount : Int := 0
  faceCount : Int := 0
  firmware : Option String := none
  platform : Option String := none
  fingerVer : Option String := none
  faceVer : Option String := none
  pushVer : Option String := none
deriving Repr, DecidableEq

/-- `ParseResult<T>` result envelope. -/
structure ParseResult (α : Type) where
  success : Bool
  data : Option α := none
  error : Option String := none
  warnings : Option (List String) := none
deriving Repr, DecidableEq

/-- `ParserOptions` (optional fields are `undefined` by default; the
source also reads `options.timezoneOffset`, defaulting to `4`). -/
structure ParserOptions where
  strictMode : Option Bool := none
  includeRawData : Option Bool := none
  timezoneOffset : Option Int := none
deriving Repr, DecidableEq

/-! ## Parser (`src/parser.ts`) -/

/-- The string pipeline of `parseTimestamp`: trim, slashes to dashes,
first `new Date` attempt, then the space-to-`"T"` retry; yields the
wall-clock milliseconds (as-if-UTC) of the parsed local-naive value. -/
def cleanWallMs (timestampStr : String) : Option Int :=
  let clean := slashToDash (jsTrim timestampStr)
  match jsDateWallMs clean with
  | some w => some w
  | none => jsDateWallMs (String.mk (replaceFirstSpaceT clean.data))

/-- `parseTimestamp(timestampStr, timezoneOffset)`.  `serverOffsetMin` is
the ambient runtime zone's `getTimezoneOffset()` value in minutes: the
epoch value of the locally-interpreted parsed `Date` is the wall-clock
milliseconds plus `serverOffsetMin * 60000`. -/
def parseTimestamp (serverOffsetMin : Int) (timestampStr : String)
    (timezoneOffset : Int := 4) : Option Int :=
  if timestampStr = "" then none
  else
    match cleanWallMs timestampStr with
    | none => none
    | some wallMs =>
      let epochMs := wallMs + serverOffsetMin * 60000
      let deviceOffsetMin := -timezoneOffset * 60
      let offsetDifferenceMin := deviceOffsetMin - serverOffsetMin
      some (epochMs + offsetDifferenceMin * 60 * 1000)

/-- `parseVerifyType(value)`: `null` for `undefined`/empty/unparsable or
a non-member integer. -/
def parseVerifyType (value : Option String) : Option VerifyType :=
  match value with
  | none => none
  | some v =>
    if v = "" then none
    else
      match jsParseInt v with
      | none => none
      | some num => if num ∈ verifyTypeValues then some num else none

/-- `parseInOutMode(value)`: same contract against the in/out set. -/
def parseInOutMode (value : Option String) : Option InOutMode :=
  match value with
  | none => none
  | some v =>
    if v = "" then none
    else
      match jsParseInt v with
      | none => none
      | some num => if num ∈ inOutModeValues then some num else none

/-- `parseWorkCode(value)`: `NORMAL` when `parseInt` gives `NaN`,
otherwise the parsed integer cast into `WorkCode` (no membership
check in the source). -/
def parseWorkCode (value : String) : WorkCode :=
  match jsParseInt value with
  | none => WorkCode.NORMAL
  | some num => num

/-- `parseNumber(value)`: parsed integer or `undefined`. -/
def parseNumber (value : String) : Option Int :=
  jsParseInt value

/-- Message literal of the insufficient-fields failure. -/
def insufficientFieldsMsg (nParts : Nat) : String :=
  s!"Insufficient fields ({nParts}/4 minimum required)"

/-- Message literal of the invalid-timestamp failure. -/
def invalidTimestampMsg (timestampStr : String) : String :=
  s!"Invalid timestamp format: {timestampStr}"

/-- Warning literal for an unrecognized in/out mode field. -/
def unknownInOutModeMsg (raw : String) : String :=
  s!"Unknown in/out mode: {raw}, using CHECK_IN"

/-- Warning literal for an unrecognized verify type field. -/
def unknownVerifyTypeMsg (raw : String) : String :=
  s!"Unknown verify type: {raw}, using UNKNOWN"

/-- The `Line N:` diagnostic wrapper of the batch loop. -/
def lineErrorMsg (lineNumber : Nat) (e : String) : String :=
  s!"Line {lineNumber}: {e}"

/-- `parseSingleAttendanceRecord(line, lineNumber, options)`.  The
`lineNumber` argument is unused by the source body, so it is omitted.
`parts[i]?.trim()` is `(parts.get? i).map jsTrim`; for `parts[4]` /
`parts[5]` the source tests JS truthiness of the *untrimmed* field
before trimming.  The interpolation of an `undefined` raw field would
print `"undefined"`, mirrored via `getD "undefined"` (unreachable given
the 4-field guard). -/
def parseSingleAttendanceRecord (serverOffsetMin : Int) (line : String)
    (options : ParserOptions := {}) : ParseResult AttendanceLog :=
  let parts := jsSplit line '\t'
  let nParts := parts.length
  if nParts < 4 then
    { success := false, error := some (insufficientFieldsMsg nParts) }
  else
    let userID := (parts[0]?.map jsTrim).getD ""
    if userID = "" then { success := false, error := some "Missing User ID" }
    else
      let timestampStr := (parts[1]?.map jsTrim).getD ""
      if timestampStr = "" then
        { success := false, error := some "Missing timestamp" }
      else
        match parseTimestamp serverOffsetMin timestampStr
            (options.timezoneOffset.getD 4) with
        | none =>
          { success := false, error := some (invalidTimestampMsg timestampStr) }
        | some ts =>
          let inOutModeRaw := parts[2]?.map jsTrim
          let inOutMode := parseInOutMode inOutModeRaw
          let ioShown := inOutModeRaw.getD "undefined"
          let verifyTypeRaw := parts[3]?.map jsTrim
          let verifyType := parseVerifyType verifyTypeRaw
          let vtShown := verifyTypeRaw.getD "undefined"
          let warnings :=
            (if inOutMode = none then [unknownInOutModeMsg ioShown] else []) ++
            (if verifyType = none then [unknownVerifyTypeMsg vtShown] else [])
          let workCode :=
            match parts[4]? with
            | some p => if p ≠ "" then parseWorkCode (jsTrim p) else WorkCode.NORMAL
            | none => WorkCode.NORMAL
          let deviceID :=
            match parts[5]? with
            | some p => if p ≠ "" then parseNumber (jsTrim p) else none
            | none => none
          let reserved := ((parts.drop 6).map jsTrim).filter (fun p => p ≠ "")
          let attendanceLog : AttendanceLog :=
            { userID := userID
              timestamp := some ts
              inOutMode := inOutMode.getD InOutMode.CHECK_IN
              verifyType := verifyType.getD VerifyType.UNKNOWN
              workCode := workCode
              deviceID := deviceID
              reserved := if reserved ≠ [] then some reserved else none
              raw := if options.includeRawData.getD false then some line else none }
          { success := true
            data := some attendanceLog
            warnings := if warnings ≠ [] then some warnings else none }

/-- The preprocessing of the batch body:
`data.trim().split("\n").filter(line => line.trim())`. -/
def preprocessLines (data : String) : List String :=
  (jsSplit (jsTrim data) '\n').filter (fun line => jsTrim line ≠ "")

/-- The `for` loop of `parseAttendanceLog`: `i` is the 0-based loop
index (`lineNumber = i + 1`), `atts`/`warns` the accumulators.  The
source's per-line `try` cannot fire in the total model. -/
def runBatch (serverOffsetMin : Int) (options : ParserOptions) :
    List String → Nat → List AttendanceLog → List String →
    ParseResult (List AttendanceLog)
  | [], _, atts, warns =>
    { success := true
      data := some atts
      warnings := if warns ≠ [] then some warns else none }
  | raw :: rest, i, atts, warns =>
    if raw = "" then runBatch serverOffsetMin options rest (i + 1) atts warns
    else
      let line := jsTrim raw
      let lineNumber := i + 1
      if line = "" then runBatch serverOffsetMin options rest (i + 1) atts warns
      else
        let result := parseSingleAttendanceRecord serverOffsetMin line options
        let atts' :=
          match result.data with
          | some d => if result.success then atts ++ [d] else atts
          | none => atts
        let warns' := warns ++ (result.warnings.getD [])
        match result.error with
        | some e =>
          if options.strictMode.getD false then
            { success := false, error := some (lineErrorMsg lineNumber e) }
          else
            runBatch serverOffsetMin options rest (i + 1) atts'
              (warns' ++ [lineErrorMsg lineNumber e])
        | none => runBatch serverOffsetMin options rest (i + 1) atts' warns'

/-- `parseAttendanceLog(data, options)`.  The `typeof data !== "string"`
disjunct of the guard is outside the typed embedding (a non-string also
fails it); `!data` on a string is `data = ""`. -/
def parseAttendanceLog (serverOffsetMin : Int) (data : String)
    (options : ParserOptions := {}) : ParseResult (List AttendanceLog) :=
  if data = "" then
    { success := false, error := some "Invalid or empty attendance data" }
  else
    runBatch serverOffsetMin options (preprocessLines data) 0 [] []

/-- `x || d` for an optional string `x` and non-empty default. -/
def orDefault (o : Option String) (d : String) : String :=
  match o with
  | some s => if s = "" then d else s
  | none => d

/-- `x || undefined` for an optional string. -/
def optStr (o : Option String) : Option String :=
  match o with
  | some s => if s = "" then none else some s
  | none => none

/-- `Number.parseInt(x, 10) || 0`. -/
def jsParseIntOr0 (s : String) : Int :=
  (jsParseInt s).getD 0

/-- `parseDeviceInfo(queryParams)`: the map is represented by its `SN`
and `INFO` entries (`none` = key absent). -/
def parseDeviceInfo (SN INFO : Option String) : ParseResult DeviceInfo :=
  if !strTruthy SN then
    { success := false,
      error := some "Missing device serial number (SN parameter)" }
  else
    let base : DeviceInfo := { serialNumber := SN.getD "" }
    if strTruthy INFO then
      let infoParts := jsSplit (INFO.getD "") ','
      let withBase : DeviceInfo :=
        { base with
          model := orDefault infoParts[0]? ""
          userCount := jsParseIntOr0 (orDefault infoParts[1]? "0")
          fpCount := jsParseIntOr0 (orDefault infoParts[2]? "0")
          recordCount := jsParseIntOr0 (orDefault infoParts[3]? "0")
          deviceIP := orDefault infoParts[4]? ""
          adminCount := jsParseIntOr0 (orDefault infoParts[5]? "0")
          passwordCount := jsParseIntOr0 (orDefault infoParts[6]? "0")
          cardCount := jsParseIntOr0 (orDefault infoParts[7]? "0")
          faceCount := jsParseIntOr0 (orDefault infoParts[8]? "0") }
      let withExt : DeviceInfo :=
        if infoParts.length > 9 then
          { withBase with
            firmware := optStr infoParts[9]?
            platform := optStr infoParts[10]?
            fingerVer := optStr infoParts[11]?
            faceVer := optStr infoParts[12]?
            pushVer := optStr infoParts[13]? }
        else withBase
      { success := true, data := some withExt }
    else
      { success := true, data := some base }

/-- `validateAttendanceLog(log)`: collect all violations, join with
`", "`. -/
def validateAttendanceLog (log : AttendanceLog) : ParseResult AttendanceLog :=
  let errors : List String :=
    (if log.userID = "" ∨ jsTrim log.userID = "" then ["User ID is required"]
     else []) ++
    (if log.timestamp = none then ["Valid timestamp is required"] else []) ++
    (if log.verifyType ∈ verifyTypeValues then [] else ["Invalid verify type"]) ++
    (if log.inOutMode ∈ inOutModeValues then [] else ["Invalid in/out mode"])
  if errors ≠ [] then
    { success := false, error := some (String.intercalate ", " errors) }
  else { success := true, data := some log }

/-! ## Theorems -/

/-- C1: `parseTimestamp` is deterministic across executing-process
timezones: for every timestamp string and device timezone offset, any
two ambient runtime local-offset values (the `getTimezoneOffset` value
used as an intermediate) produce the same instant — the runtime offset
cancels out.  Idempotence under repeated parsing is immediate since the
embedding is a pure function of these arguments. -/
theorem C1_parseTimestamp_deterministic (s : String) (tz off₁ off₂ : Int) :
    parseTimestamp off₁ s tz = parseTimestamp off₂ s tz := by
  unfold parseTimestamp
  split
  · rfl
  · cases cleanWallMs s with
    | none => rfl
    | some w =>
      simp only [Option.some.injEq]
      ring

/-- `jsTrim` written with `List.rdropWhile`. -/
theorem jsTrim_eq_rdrop (s : String) :
    jsTrim s = String.mk (List.rdropWhile isJsSpace (s.data.dropWhile isJsSpace)) := by
  simp [jsTrim, List.rdropWhile]

/-- Core of trim idempotence: dropping spaces on both ends is stable. -/
theorem trim_core_idem (p : Char → Bool) (l : List Char) :
    List.rdropWhile p ((List.rdropWhile p (l.dropWhile p)).dropWhile p) =
      List.rdropWhile p (l.dropWhile p) := by
  have hmm : (l.dropWhile p).dropWhile p = l.dropWhile p :=
    List.dropWhile_idempotent ..
  rcases hr : List.rdropWhile p (l.dropWhile p) with _ | ⟨a, t⟩
  · simp
  · have hpre : List.rdropWhile p (l.dropWhile p) <+: l.dropWhile p :=
      List.rdropWhile_prefix ..
    rw [hr] at hpre
    obtain ⟨u, hu⟩ := hpre
    have h1 : l.dropWhile p = a :: (t ++ u) := by
      rw [← hu]; simp
    have ha : ¬ p a = true := by
      intro hpa
      have h2 := hmm
      rw [h1, List.dropWhile_cons_of_pos hpa] at h2
      have hlen := congrArg List.length h2
      have hle : (List.dropWhile p (t ++ u)).length ≤ (t ++ u).length :=
        (List.dropWhile_suffix p).length_le
      simp at hlen
      simp at hle
      omega
    rw [List.dropWhile_cons_of_neg ha, ← hr, List.rdropWhile_idempotent]

/-- JS `trim` is idempotent. -/
theorem jsTrim_idem (s : String) : jsTrim (jsTrim s) = jsTrim s := by
  rw [jsTrim_eq_rdrop, jsTrim_eq_rdrop]
  exact congrArg String.mk (trim_core_idem isJsSpace s.data)

/-- A coerced in/out mode is a member of the closed set. -/
theorem parseInOutMode_mem {x : Option String} {n : Int}
    (h : parseInOutMode x = some n) : n ∈ inOutModeValues := by
  rcases x with _ | v
  · simp [parseInOutMode] at h
  · simp only [parseInOutMode] at h
    split at h
    · simp at h
    · split at h
      · simp at h
      · split at h
        · simp only [Option.some.injEq] at h
          subst h
          assumption
        · simp at h

/-- A coerced verify type is a member of the closed set. -/
theorem parseVerifyType_mem {x : Option String} {n : Int}
    (h : parseVerifyType x = some n) : n ∈ verifyTypeValues := by
  rcases x with _ | v
  · simp [parseVerifyType] at h
  · simp only [parseVerifyType] at h
    split at h
    · simp at h
    · split at h
      · simp at h
      · split at h
        · simp only [Option.some.injEq] at h
          subst h
          assumption
        · simp at h

/-- Characterization of the success path of the single-record parser:
once the field-count, user-id and timestamp guards pass, the returned
envelope is the fully built record. -/
theorem parseSingle_success_eq (so : Int) (line : String) (opts : ParserOptions)
    (ts : Int)
    (hlen : ¬ (jsSplit line '\t').length < 4)
    (hu : (((jsSplit line '\t')[0]?).map jsTrim).getD "" ≠ "")
    (ht : (((jsSplit line '\t')[1]?).map jsTrim).getD "" ≠ "")
    (hts : parseTimestamp so ((((jsSplit line '\t')[1]?).map jsTrim).getD "")
      (opts.timezoneOffset.getD 4) = some ts) :
    parseSingleAttendanceRecord so line opts =
      (let parts := jsSplit line '\t'
       let inOutMode := parseInOutMode (parts[2]?.map jsTrim)
       let verifyType := parseVerifyType (parts[3]?.map jsTrim)
       let warnings :=
         (if inOutMode = none then
           [unknownInOutModeMsg ((parts[2]?.map jsTrim).getD "undefined")]
          else []) ++
         (if verifyType = none then
           [unknownVerifyTypeMsg ((parts[3]?.map jsTrim).getD "undefined")]
          else [])
       let workCode :=
         match parts[4]? with
         | some p => if p ≠ "" then parseWorkCode (jsTrim p) else WorkCode.NORMAL
         | none => WorkCode.NORMAL
       let deviceID :=
         match parts[5]? with
         | some p => if p ≠ "" then parseNumber (jsTrim p) else none
         | none => none
       let reserved := ((parts.drop 6).map jsTrim).filter (fun p => p ≠ "")
       { success := true
         data := some
           { userID := (parts[0]?.map jsTrim).getD ""
             timestamp := some ts
             inOutMode := inOutMode.getD InOutMode.CHECK_IN
             verifyType := verifyType.getD VerifyType.UNKNOWN
             workCode := workCode
             deviceID := deviceID
             reserved := if reserved ≠ [] then some reserved else none
             raw := if opts.includeRawData.getD false then some line else none }
         warnings := if warnings ≠ [] then some warnings else none }) := by
  unfold parseSingleAttendanceRecord
  simp only [if_neg hlen, if_neg hu, if_neg ht, hts]

/-- Inversion: whenever the single-record parser returns a data
payload, all three guards passed (field count, user id, timestamp). -/
theorem parseSingle_guards_of_data (so : Int) (line : String)
    (opts : ParserOptions) (log : AttendanceLog)
    (hd : (parseSingleAttendanceRecord so line opts).data = some log) :
    ∃ ts,
      ¬ (jsSplit line '\t').length < 4 ∧
      (((jsSplit line '\t')[0]?).map jsTrim).getD "" ≠ "" ∧
      (((jsSplit line '\t')[1]?).map jsTrim).getD "" ≠ "" ∧
      parseTimestamp so ((((jsSplit line '\t')[1]?).map jsTrim).getD "")
        (opts.timezoneOffset.getD 4) = some ts := by
  simp only [parseSingleAttendanceRecord] at hd
  split at hd
  · simp at hd
  · split at hd
    · simp at hd
    · split at hd
      · simp at hd
      · split at hd
        · simp at hd
        · next ts heq =>
          exact ⟨ts, by assumption, by assumption, by assumption, heq⟩

/-- C7: a well-formed 4+-field tab line with non-empty user id, a
normalizing timestamp, and closed-set in/out and verify fields parses
successfully, reproducing field 0 (trimmed), field 2 and field 3
verbatim, with no warnings. -/
theorem C7_wellformed_identity (so : Int) (line : String)
    (opts : ParserOptions) (p0 p1 p2 p3 : String) (ts m v : Int)
    (hp0 : (jsSplit line '\t')[0]? = some p0)
    (hp1 : (jsSplit line '\t')[1]? = some p1)
    (hp2 : (jsSplit line '\t')[2]? = some p2)
    (hp3 : (jsSplit line '\t')[3]? = some p3)
    (hu : jsTrim p0 ≠ "")
    (ht : jsTrim p1 ≠ "")
    (hts : parseTimestamp so (jsTrim p1) (opts.timezoneOffset.getD 4) = some ts)
    (hm : parseInOutMode (some (jsTrim p2)) = some m)
    (hv : parseVerifyType (some (jsTrim p3)) = some v) :
    (parseSingleAttendanceRecord so line opts).success = true ∧
    (parseSingleAttendanceRecord so line opts).data.map AttendanceLog.userID =
      some (jsTrim p0) ∧
    (parseSingleAttendanceRecord so line opts).data.map AttendanceLog.inOutMode =
      some m ∧
    (parseSingleAttendanceRecord so line opts).data.map AttendanceLog.verifyType =
      some v ∧
    (parseSingleAttendanceRecord so line opts).warnings = none := by
  have hlen : ¬ (jsSplit line '\t').length < 4 := by
    rcases List.getElem?_eq_some.mp hp3 with ⟨hl, _⟩
    omega
  have hu' : (((jsSplit line '\t')[0]?).map jsTrim).getD "" ≠ "" := by
    simp only [List.get?_eq_getElem?, hp0]; simpa using hu
  have ht' : (((jsSplit line '\t')[1]?).map jsTrim).getD "" ≠ "" := by
    simp only [List.get?_eq_getElem?, hp1]; simpa using ht
  have hts' : parseTimestamp so ((((jsSplit line '\t')[1]?).map jsTrim).getD "")
      (opts.timezoneOffset.getD 4) = some ts := by
    simp only [List.get?_eq_getElem?, hp1]; simpa using hts
  rw [parseSingle_success_eq so line opts ts hlen hu' ht' hts']
  simp [hp0, hp2, hp3, hm, hv]

/-- Witness for C7: the spec's concrete scenario line parses to user
`"11"`, mode check-in, verify-method palm, work code normal, with no
warnings. -/
theorem C7_wellformed_identity_witness :
    (parseSingleAttendanceRecord 0
        "11\t2025-08-27 10:57:49\t0\t25\t0\t0\t0\t0\t0\t0" {}).success = true ∧
    (parseSingleAttendanceRecord 0
        "11\t2025-08-27 10:57:49\t0\t25\t0\t0\t0\t0\t0\t0" {}).data.map
      AttendanceLog.userID = some "11" ∧
    (parseSingleAttendanceRecord 0
        "11\t2025-08-27 10:57:49\t0\t25\t0\t0\t0\t0\t0\t0" {}).data.map
      AttendanceLog.inOutMode = some InOutMode.CHECK_IN ∧
    (parseSingleAttendanceRecord 0
        "11\t2025-08-27 10:57:49\t0\t25\t0\t0\t0\t0\t0\t0" {}).data.map
      AttendanceLog.verifyType = some VerifyType.PALM ∧
    (parseSingleAttendanceRecord 0
        "11\t2025-08-27 10:57:49\t0\t25\t0\t0\t0\t0\t0\t0" {}).data.map
      AttendanceLog.workCode = some WorkCode.NORMAL ∧
    (parseSingleAttendanceRecord 0
        "11\t2025-08-27 10:57:49\t0\t25\t0\t0\t0\t0\t0\t0" {}).warnings = none := by
  have h := C7_wellformed_identity 0
    "11\t2025-08-27 10:57:49\t0\t25\t0\t0\t0\t0\t0\t0" {}
    "11" "2025-08-27 10:57:49" "0" "25" 1756277869000 0 25
    (by decide) (by decide) (by decide) (by decide)
    (by decide) (by decide) (by decide) (by decide) (by decide)
  refine ⟨h.1, ?_, h.2.2.1, h.2.2.2.1, ?_, h.2.2.2.2⟩
  · simpa using h.2.1
  · decide

/-- Every warning the single-record parser can attach is an in/out-mode
warning or a verify-type warning (none mentions the work code). -/
theorem parseSingle_warnings_shape (so : Int) (line : String)
    (opts : ParserOptions) (w : String)
    (hw : w ∈ ((parseSingleAttendanceRecord so line opts).warnings).getD []) :
    (∃ raw, w = unknownInOutModeMsg raw) ∨ ∃ raw, w = unknownVerifyTypeMsg raw := by
  simp only [parseSingleAttendanceRecord] at hw
  split at hw
  · simp at hw
  · split at hw
    · simp at hw
    · split at hw
      · simp at hw
      · split at hw
        · simp at hw
        · rcases hio : parseInOutMode (((jsSplit line '\t')[2]?).map jsTrim)
              with _ | m
          · rcases hv : parseVerifyType (((jsSplit line '\t')[3]?).map jsTrim)
                with _ | v
            · simp [hio, hv] at hw
              rcases hw with hw | hw
              · exact Or.inl ⟨_, hw⟩
              · exact Or.inr ⟨_, hw⟩
            · simp [hio, hv] at hw
              exact Or.inl ⟨_, hw⟩
          · rcases hv : parseVerifyType (((jsSplit line '\t')[3]?).map jsTrim)
                with _ | v
            · simp [hio, hv] at hw
              exact Or.inr ⟨_, hw⟩
            · simp [hio, hv] at hw

/-- C5 counterexample: the line whose work-code field is `"7"` (an
integer outside the declared work-code set) parses successfully with
work code `7`, not `NORMAL` — the source casts any parsed integer
without a membership check. -/
theorem C5_workcode_counterexample :
    (parseSingleAttendanceRecord 0
        "11\t2025-08-27 10:57:49\t0\t25\t7" {}).success = true ∧
    (parseSingleAttendanceRecord 0
        "11\t2025-08-27 10:57:49\t0\t25\t7" {}).data.map
      AttendanceLog.workCode = some 7 ∧
    (7 : Int) ∉ workCodeValues ∧ (7 : Int) ≠ WorkCode.NORMAL := by
  refine ⟨by decide, by decide, by decide, by decide⟩

/-- C5 (amended): a work-code field that is absent, empty, or
unparsable yields `NORMAL`; a parseable integer is taken verbatim even
outside the declared set `{0,1,2,3}`; and no warning is ever emitted
for the work-code field (all warnings concern in/out mode or verify
type). -/
theorem C5_workcode_amended (so : Int) (line : String)
    (opts : ParserOptions) (log : AttendanceLog)
    (hd : (parseSingleAttendanceRecord so line opts).data = some log) :
    ((jsSplit line '\t')[4]? = none → log.workCode = WorkCode.NORMAL) ∧
    (∀ p, (jsSplit line '\t')[4]? = some p → p = "" →
      log.workCode = WorkCode.NORMAL) ∧
    (∀ p, (jsSplit line '\t')[4]? = some p → p ≠ "" →
      jsParseInt (jsTrim p) = none → log.workCode = WorkCode.NORMAL) ∧
    (∀ p n, (jsSplit line '\t')[4]? = some p → p ≠ "" →
      jsParseInt (jsTrim p) = some n → log.workCode = n) ∧
    (∀ w ∈ ((parseSingleAttendanceRecord so line opts).warnings).getD [],
      (∃ raw, w = unknownInOutModeMsg raw) ∨
        ∃ raw, w = unknownVerifyTypeMsg raw) := by
  obtain ⟨ts, hlen, hu, ht, hts⟩ := parseSingle_guards_of_data so line opts log hd
  rw [parseSingle_success_eq so line opts ts hlen hu ht hts] at hd
  simp only [Option.some.injEq] at hd
  subst hd
  refine ⟨?_, ?_, ?_, ?_, ?_⟩
  · intro h4; simp [h4]
  · intro p hp hpe; subst hpe; simp [hp]
  · intro p hp hpe hpz; simp [hp, hpe, parseWorkCode, hpz]
  · intro p n hp hpe hpn; simp [hp, hpe, parseWorkCode, hpn]
  · exact parseSingle_warnings_shape so line opts

/-- Witness for C5 (amended) on a line with an unparsable work-code
field `"x"`: the record's work code is `NORMAL` and no warnings are
attached. -/
theorem C5_workcode_amended_witness :
    (parseSingleAttendanceRecord 0
        "11\t2025-08-27 10:57:49\t0\t25\tx" {}).data.map
      AttendanceLog.workCode = some WorkCode.NORMAL ∧
    (parseSingleAttendanceRecord 0
        "11\t2025-08-27 10:57:49\t0\t25\tx" {}).warnings = none := by
  have h := C5_workcode_amended 0 "11\t2025-08-27 10:57:49\t0\t25\tx" {}
    { userID := "11", timestamp := some 1756277869000,
      inOutMode := 0, verifyType := 25, workCode := 0 }
    (by decide)
  have h3 := h.2.2.1 "x" (by decide) (by decide) (by decide)
  refine ⟨?_, by decide⟩
  rw [show (parseSingleAttendanceRecord 0
      "11\t2025-08-27 10:57:49\t0\t25\tx" {}).data = some
      { userID := "11", timestamp := some 1756277869000,
        inOutMode := 0, verifyType := 25, workCode := 0 } from by decide]
  simpa using h3

/-- C6: on a 4+-field line with a non-empty user id and parseable
timestamp, an in/out-mode or verify-method field whose coercion fails
(empty, unparsable, or out of the closed set) still yields success; the
field defaults to check-in / unknown respectively and a warning naming
the raw trimmed field value is attached. -/
theorem C6_enum_defaults (so : Int) (line : String)
    (opts : ParserOptions) (p0 p1 p2 p3 : String) (ts : Int)
    (hp0 : (jsSplit line '\t')[0]? = some p0)
    (hp1 : (jsSplit line '\t')[1]? = some p1)
    (hp2 : (jsSplit line '\t')[2]? = some p2)
    (hp3 : (jsSplit line '\t')[3]? = some p3)
    (hu : jsTrim p0 ≠ "")
    (ht : jsTrim p1 ≠ "")
    (hts : parseTimestamp so (jsTrim p1) (opts.timezoneOffset.getD 4) = some ts) :
    (parseSingleAttendanceRecord so line opts).success = true ∧
    (parseInOutMode (some (jsTrim p2)) = none →
      (parseSingleAttendanceRecord so line opts).data.map
        AttendanceLog.inOutMode = some InOutMode.CHECK_IN ∧
      unknownInOutModeMsg (jsTrim p2) ∈
        ((parseSingleAttendanceRecord so line opts).warnings).getD []) ∧
    (parseVerifyType (some (jsTrim p3)) = none →
      (parseSingleAttendanceRecord so line opts).data.map
        AttendanceLog.verifyType = some VerifyType.UNKNOWN ∧
      unknownVerifyTypeMsg (jsTrim p3) ∈
        ((parseSingleAttendanceRecord so line opts).warnings).getD []) := by
  have hlen : ¬ (jsSplit line '\t').length < 4 := by
    rcases List.getElem?_eq_some.mp hp3 with ⟨hl, _⟩
    omega
  have hu' : (((jsSplit line '\t')[0]?).map jsTrim).getD "" ≠ "" := by
    rw [hp0]; simpa using hu
  have ht' : (((jsSplit line '\t')[1]?).map jsTrim).getD "" ≠ "" := by
    rw [hp1]; simpa using ht
  have hts' : parseTimestamp so ((((jsSplit line '\t')[1]?).map jsTrim).getD "")
      (opts.timezoneOffset.getD 4) = some ts := by
    rw [hp1]; simpa using hts
  rw [parseSingle_success_eq so line opts ts hlen hu' ht' hts']
  refine ⟨by simp, ?_, ?_⟩
  · intro hio
    refine ⟨by simp [hp2, hio], ?_⟩
    simp [hp2, hio]
  · intro hv
    refine ⟨by simp [hp3, hv], ?_⟩
    simp [hp3, hv]

/-- Witness for C6 on a line whose in/out field is `"9"` (out of set)
and verify field is `"zz"` (unparsable). -/
theorem C6_enum_defaults_witness :
    (parseSingleAttendanceRecord 0
        "11\t2025-08-27 10:57:49\t9\tzz" {}).success = true ∧
    (parseSingleAttendanceRecord 0
        "11\t2025-08-27 10:57:49\t9\tzz" {}).data.map
      AttendanceLog.inOutMode = some InOutMode.CHECK_IN ∧
    unknownInOutModeMsg "9" ∈
      ((parseSingleAttendanceRecord 0
        "11\t2025-08-27 10:57:49\t9\tzz" {}).warnings).getD [] ∧
    (parseSingleAttendanceRecord 0
        "11\t2025-08-27 10:57:49\t9\tzz" {}).data.map
      AttendanceLog.verifyType = some VerifyType.UNKNOWN ∧
    unknownVerifyTypeMsg "zz" ∈
      ((parseSingleAttendanceRecord 0
        "11\t2025-08-27 10:57:49\t9\tzz" {}).warnings).getD [] := by
  have h := C6_enum_defaults 0 "11\t2025-08-27 10:57:49\t9\tzz" {}
    "11" "2025-08-27 10:57:49" "9" "zz" 1756277869000
    (by decide) (by decide) (by decide) (by decide)
    (by decide) (by decide) (by decide)
  have h2 := h.2.1 (by decide)
  have h3 := h.2.2 (by decide)
  exact ⟨h.1, by simpa using h2.1, by simpa using h2.2,
    by simpa using h3.1, by simpa using h3.2⟩

/-- C10: every record returned with a success payload by the
single-record parser passes `validateAttendanceLog`: its user id is
non-empty (also after trimming), its timestamp is a valid instant, and
its verify-type and in/out-mode values are members of their closed
sets, so the validator returns success on it. -/
theorem C10_parser_validator_consistency (so : Int) (line : String)
    (opts : ParserOptions) (log : AttendanceLog)
    (hd : (parseSingleAttendanceRecord so line opts).data = some log) :
    validateAttendanceLog log =
      { success := true, data := some log, error := none, warnings := none } := by
  obtain ⟨ts, hlen, hu, ht, hts⟩ := parseSingle_guards_of_data so line opts log hd
  rw [parseSingle_success_eq so line opts ts hlen hu ht hts] at hd
  simp only [Option.some.injEq] at hd
  subst hd
  rcases h0 : (jsSplit line '\t')[0]? with _ | p0
  · rw [h0] at hu; simp at hu
  · rw [h0] at hu
    simp only [Option.map_some', Option.getD_some] at hu
    have huid : ¬ ((((jsSplit line '\t')[0]?).map jsTrim).getD "" = "" ∨
        jsTrim ((((jsSplit line '\t')[0]?).map jsTrim).getD "") = "") := by
      rw [h0]
      simp only [Option.map_some', Option.getD_some]
      push_neg
      exact ⟨hu, by rw [jsTrim_idem]; exact hu⟩
    have hio : ((parseInOutMode ((jsSplit line '\t')[2]?.map jsTrim)).getD
        InOutMode.CHECK_IN) ∈ inOutModeValues := by
      rcases hm : parseInOutMode ((jsSplit line '\t')[2]?.map jsTrim) with _ | m
      · simp [inOutModeValues, InOutMode.CHECK_IN]
      · simpa using parseInOutMode_mem hm
    have hvt : ((parseVerifyType ((jsSplit line '\t')[3]?.map jsTrim)).getD
        VerifyType.UNKNOWN) ∈ verifyTypeValues := by
      rcases hv : parseVerifyType ((jsSplit line '\t')[3]?.map jsTrim) with _ | v
      · simp [verifyTypeValues, VerifyType.UNKNOWN]
      · simpa using parseVerifyType_mem hv
    unfold validateAttendanceLog
    simp [huid, hio, hvt]
    exact ⟨hu, by rw [jsTrim_idem]; exact hu⟩

/-- Witness for C10: the validator accepts the record parsed from a
concrete well-formed line. -/
theorem C10_parser_validator_consistency_witness :
    validateAttendanceLog
        { userID := "11", timestamp := some 1756277869000,
          inOutMode := 0, verifyType := 25, workCode := 0 } =
      { success := true,
        data := some { userID := "11",
                       timestamp := some 1756277869000,
                       inOutMode := 0, verifyType := 25, workCode := 0 },
        error := none, warnings := none } :=
  C10_parser_validator_consistency 0 "11\t2025-08-27 10:57:49\t0\t25" {}
    { userID := "11", timestamp := some 1756277869000,
      inOutMode := 0, verifyType := 25, workCode := 0 }
    (by decide)

/-- Shape of any single-record result: either a success carrying a
payload and no error, or a failure carrying an error and neither
payload nor warnings. -/
theorem parseSingle_shape (so : Int) (l : String) (opts : ParserOptions) :
    ((parseSingleAttendanceRecord so l opts).success = true ∧
     (parseSingleAttendanceRecord so l opts).error = none ∧
     ∃ d, (parseSingleAttendanceRecord so l opts).data = some d) ∨
    ((parseSingleAttendanceRecord so l opts).success = false ∧
     (parseSingleAttendanceRecord so l opts).data = none ∧
     (parseSingleAttendanceRecord so l opts).warnings = none ∧
     ∃ e, (parseSingleAttendanceRecord so l opts).error = some e) := by
  simp only [parseSingleAttendanceRecord]
  split
  · right; simp
  · split
    · right; simp
    · split
      · right; simp
      · split
        · right; simp
        · left; simp

/-- A member of the preprocessed line list is non-blank. -/
theorem preprocess_mem_nonblank {body l : String}
    (h : l ∈ preprocessLines body) : l ≠ "" ∧ jsTrim l ≠ "" := by
  unfold preprocessLines at h
  have h2 := (List.mem_filter.mp h).2
  simp only [ne_eq, decide_not, Bool.not_eq_eq_eq_not, Bool.not_true,
    decide_eq_false_iff_not] at h2
  refine ⟨?_, h2⟩
  intro he
  exact h2 (by rw [he]; rfl)

/-- Processing a block of successfully-parsed non-blank lines appends
their records and warnings and advances the line counter. -/
theorem runBatch_append_good (so : Int) (opts : ParserOptions) :
    ∀ (good rest : List String) (i : Nat) (atts : List AttendanceLog)
      (warns : List String),
      (∀ l ∈ good, jsTrim l ≠ "" ∧
        (parseSingleAttendanceRecord so (jsTrim l) opts).success = true) →
      runBatch so opts (good ++ rest) i atts warns =
        runBatch so opts rest (i + good.length)
          (atts ++ (good.map (fun l =>
            ((parseSingleAttendanceRecord so (jsTrim l) opts).data).toList)).flatten)
          (warns ++ (good.map (fun l =>
            ((parseSingleAttendanceRecord so (jsTrim l) opts).warnings).getD [])).flatten) := by
  intro good
  induction good with
  | nil => intro rest i atts warns _; simp
  | cons a as ih =>
    intro rest i atts warns hg
    obtain ⟨ha1, ha2⟩ := hg a (List.mem_cons_self ..)
    have hane : a ≠ "" := by
      intro he
      exact ha1 (by rw [he]; rfl)
    have hsh := parseSingle_shape so (jsTrim a) opts
    rcases hsh with ⟨_, herr, d, hd⟩ | ⟨hf, _⟩
    · simp only [List.cons_append, runBatch]
      rw [if_neg hane, if_neg ha1]
      simp only [hd, ha2, if_pos, herr, List.append_eq]
      rw [ih rest (i + 1) (atts ++ [d])
        (warns ++ ((parseSingleAttendanceRecord so (jsTrim a) opts).warnings).getD [])
        (fun l hl => hg l (List.mem_cons_of_mem a hl))]
      have harith : i + 1 + as.length = i + (as.length + 1) := by omega
      rw [harith]
      simp [hd, List.append_assoc]
    · rw [ha2] at hf
      simp at hf

/-- Processing a batch in which every line parses successfully yields
success with all records and the accumulated warnings. -/
theorem runBatch_all_good (so : Int) (opts : ParserOptions)
    (lines : List String) (i : Nat) (atts : List AttendanceLog)
    (warns : List String)
    (hg : ∀ l ∈ lines, jsTrim l ≠ "" ∧
      (parseSingleAttendanceRecord so (jsTrim l) opts).success = true) :
    runBatch so opts lines i atts warns =
      { success := true
        data := some (atts ++ (lines.map (fun l =>
          ((parseSingleAttendanceRecord so (jsTrim l) opts).data).toList)).flatten)
        warnings :=
          if (warns ++ (lines.map (fun l =>
              ((parseSingleAttendanceRecord so (jsTrim l) opts).warnings).getD [])).flatten) ≠ []
          then some (warns ++ (lines.map (fun l =>
              ((parseSingleAttendanceRecord so (jsTrim l) opts).warnings).getD [])).flatten)
          else none } := by
  have h := runBatch_append_good so opts lines [] i atts warns hg
  rw [List.append_nil] at h
  rw [h]
  rfl

/-- In lenient mode the batch loop always reports success. -/
theorem runBatch_lenient_success (so : Int) (opts : ParserOptions)
    (hlen : opts.strictMode.getD false = false) :
    ∀ (lines : List String) (i : Nat) (atts : List AttendanceLog)
      (warns : List String),
      (runBatch so opts lines i atts warns).success = true := by
  intro lines
  induction lines with
  | nil => intro i atts warns; rfl
  | cons a as ih =>
    intro i atts warns
    simp only [runBatch]
    split
    · exact ih ..
    · split
      · exact ih ..
      · rcases herr : (parseSingleAttendanceRecord so (jsTrim a) opts).error
            with _ | e
        · simp only [herr]
          exact ih ..
        · simp only [herr, hlen, Bool.false_eq_true, if_false]
          exact ih ..

/-- The records of a list of lines that each contribute exactly one
record number as many as the lines. -/
theorem flatten_singleton_length {α β : Type} (f : α → List β) :
    ∀ (g : List α), (∀ l ∈ g, (f l).length = 1) →
      ((g.map f).flatten).length = g.length
  | [], _ => rfl
  | a :: as, h => by
    have h1 := h a (List.mem_cons_self ..)
    have h2 := flatten_singleton_length f as
      (fun l hl => h l (List.mem_cons_of_mem a hl))
    simp [h1, h2]
    omega

/-- A mapped flatten over lines that each contribute nothing is empty. -/
theorem flatten_nil_of_all_nil {α β : Type} (f : α → List β) :
    ∀ (g : List α), (∀ l ∈ g, f l = []) → (g.map f).flatten = []
  | [], _ => rfl
  | a :: as, h => by
    simp [h a (List.mem_cons_self ..),
      flatten_nil_of_all_nil f as (fun l hl => h l (List.mem_cons_of_mem a hl))]

/-- C2 counterexample: the whitespace-only input `" "` is empty after
trimming, yet the batch parser returns success with zero records and no
warnings — the emptiness guard tests the input *before* trimming, so
"fails exactly when … empty after trimming" is false at `" "`. -/
theorem C2_blank_input_counterexample :
    jsTrim " " = "" ∧
    parseAttendanceLog 0 " " {} =
      { success := true, data := some [], error := none, warnings := none } :=
  ⟨by decide, by decide⟩

/-- C2 (amended): in lenient mode the batch parser fails exactly when
the input is the empty string (emptiness is tested before trimming; a
non-string input, outside the typed embedding, also fails); every
non-empty input consisting only of blank lines yields success with zero
records and no warnings. -/
theorem C2_fail_iff_empty (so : Int) (data : String) (opts : ParserOptions) :
    (opts.strictMode.getD false = false →
      ((parseAttendanceLog so data opts).success = false ↔ data = "")) ∧
    (data ≠ "" → (∀ l ∈ jsSplit (jsTrim data) '\n', jsTrim l = "") →
      parseAttendanceLog so data opts =
        { success := true, data := some [], error := none, warnings := none }) := by
  constructor
  · intro hlen
    constructor
    · intro hf
      by_contra hne
      unfold parseAttendanceLog at hf
      rw [if_neg hne] at hf
      rw [runBatch_lenient_success so opts hlen] at hf
      simp at hf
    · intro he
      subst he
      rfl
  · intro hne hbl
    unfold parseAttendanceLog
    rw [if_neg hne]
    have hemp : preprocessLines data = [] := by
      unfold preprocessLines
      rw [List.filter_eq_nil_iff]
      intro l hl
      simp [hbl l hl]
    rw [hemp]
    rfl

/-- Witness for C2 (amended) at the whitespace-only input `" \n\t"`. -/
theorem C2_fail_iff_empty_witness :
    ((parseAttendanceLog 0 " \n\t" {}).success = false ↔ (" \n\t" : String) = "") ∧
    parseAttendanceLog 0 " \n\t" {} =
      { success := true, data := some [], error := none, warnings := none } := by
  have h := C2_fail_iff_empty 0 " \n\t" {}
  exact ⟨h.1 (by decide), h.2 (by decide) (by decide)⟩

/-- C3 counterexample: in the body
`"11\t2025-08-27 10:57:49\t0\t25\n\nx"` the malformed line `"x"` is the
*third* line of the original body (a blank line precedes it), but the
batch warning cites `"Line 2:"` — blank lines are dropped before
numbering, not counted. -/
theorem C3_linenumber_counterexample :
    (parseAttendanceLog 0
      "11\t2025-08-27 10:57:49\t0\t25\n\nx" {}).success = true ∧
    (parseAttendanceLog 0 "11\t2025-08-27 10:57:49\t0\t25\n\nx" {}).warnings =
      some ["Line 2: Insufficient fields (1/4 minimum required)"] ∧
    jsSplit "11\t2025-08-27 10:57:49\t0\t25\n\nx" '\n' =
      ["11\t2025-08-27 10:57:49\t0\t25", "", "x"] ∧
    (∀ w ∈ ((parseAttendanceLog 0
        "11\t2025-08-27 10:57:49\t0\t25\n\nx" {}).warnings).getD [],
      strStarts "Line 3:" w = false) :=
  ⟨by decide, by decide, by decide, by decide⟩

/-- C3 (amended): in lenient mode, a batch whose non-blank trimmed
lines are `g₁ ++ bad :: g₂`, where every line of `g₁ ++ g₂` parses
successfully with no warnings and `bad` fails with error `e`, succeeds
with `g₁.length + g₂.length` records and exactly the warning
`"Line N: e"` where `N = g₁.length + 1` is the malformed line's 1-based
position among the non-blank lines (blank lines are skipped and not
counted in the numbering). -/
theorem C3_lenient_single_malformed (so : Int) (body : String)
    (opts : ParserOptions) (g₁ g₂ : List String) (bad e : String)
    (hstrict : opts.strictMode.getD false = false)
    (hpre : preprocessLines body = g₁ ++ bad :: g₂)
    (hg : ∀ l ∈ g₁ ++ g₂,
      (parseSingleAttendanceRecord so (jsTrim l) opts).success = true ∧
      (parseSingleAttendanceRecord so (jsTrim l) opts).warnings = none)
    (hbade : (parseSingleAttendanceRecord so (jsTrim bad) opts).error = some e) :
    (parseAttendanceLog so body opts).success = true ∧
    ((parseAttendanceLog so body opts).data.getD []).length =
      g₁.length + g₂.length ∧
    (parseAttendanceLog so body opts).warnings =
      some [lineErrorMsg (g₁.length + 1) e] := by
  have hne : body ≠ "" := by
    intro he
    rw [he] at hpre
    have hnil : preprocessLines "" = [] := rfl
    rw [hnil] at hpre
    simp at hpre
  obtain ⟨hbne, hbtrim⟩ := preprocess_mem_nonblank
    (show bad ∈ preprocessLines body by
      rw [hpre]; exact List.mem_append_right _ (List.mem_cons_self ..))
  rcases parseSingle_shape so (jsTrim bad) opts with ⟨_, herr0, _⟩ |
    ⟨_, hbdata, hbwarn, _⟩
  · rw [hbade] at herr0; simp at herr0
  have hgood1 : ∀ l ∈ g₁, jsTrim l ≠ "" ∧
      (parseSingleAttendanceRecord so (jsTrim l) opts).success = true := by
    intro l hl
    exact ⟨(preprocess_mem_nonblank
        (show l ∈ preprocessLines body by
          rw [hpre]; exact List.mem_append_left _ hl)).2,
      (hg l (List.mem_append_left _ hl)).1⟩
  have hgood2 : ∀ l ∈ g₂, jsTrim l ≠ "" ∧
      (parseSingleAttendanceRecord so (jsTrim l) opts).success = true := by
    intro l hl
    exact ⟨(preprocess_mem_nonblank
        (show l ∈ preprocessLines body by
          rw [hpre]
          exact List.mem_append_right _ (List.mem_cons_of_mem bad hl))).2,
      (hg l (List.mem_append_right _ hl)).1⟩
  have hw1 : (g₁.map (fun l =>
      ((parseSingleAttendanceRecord so (jsTrim l) opts).warnings).getD [])).flatten
        = [] :=
    flatten_nil_of_all_nil _ g₁ (fun l hl => by
      rw [(hg l (List.mem_append_left _ hl)).2]; rfl)
  have hw2 : (g₂.map (fun l =>
      ((parseSingleAttendanceRecord so (jsTrim l) opts).warnings).getD [])).flatten
        = [] :=
    flatten_nil_of_all_nil _ g₂ (fun l hl => by
      rw [(hg l (List.mem_append_right _ hl)).2]; rfl)
  have hrec : ∀ l ∈ g₁ ++ g₂,
      ((parseSingleAttendanceRecord so (jsTrim l) opts).data.toList).length = 1 := by
    intro l hl
    rcases parseSingle_shape so (jsTrim l) opts with ⟨_, _, d, hd⟩ | ⟨hf, _⟩
    · simp [hd]
    · rw [(hg l hl).1] at hf; simp at hf
  unfold parseAttendanceLog
  rw [if_neg hne, hpre,
    runBatch_append_good so opts g₁ (bad :: g₂) 0 [] [] hgood1]
  simp only [List.nil_append, hw1, runBatch]
  rw [if_neg hbne, if_neg hbtrim]
  simp only [hbdata, hbwarn, hbade, hstrict, Bool.false_eq_true, if_false,
    Option.getD_none, List.append_nil, Nat.zero_add]
  rw [runBatch_all_good so opts g₂ _ _ _ hgood2]
  refine ⟨rfl, ?_, ?_⟩
  · simp only [Option.getD_some]
    rw [List.length_append,
      flatten_singleton_length _ g₁ (fun l hl => hrec l (List.mem_append_left _ hl)),
      flatten_singleton_length _ g₂ (fun l hl => hrec l (List.mem_append_right _ hl))]
  · simp [hw2]

/-- Witness for C3 (amended): one good line followed by the malformed
line `"zz"` yields one record and the warning `"Line 2: …"`. -/
theorem C3_lenient_single_malformed_witness :
    (parseAttendanceLog 0
      "11\t2025-08-27 10:57:49\t0\t25\nzz" {}).success = true ∧
    ((parseAttendanceLog 0
      "11\t2025-08-27 10:57:49\t0\t25\nzz" {}).data.getD []).length = 1 ∧
    (parseAttendanceLog 0 "11\t2025-08-27 10:57:49\t0\t25\nzz" {}).warnings =
      some [lineErrorMsg 2 "Insufficient fields (1/4 minimum required)"] := by
  have h := C3_lenient_single_malformed 0
    "11\t2025-08-27 10:57:49\t0\t25\nzz" {}
    ["11\t2025-08-27 10:57:49\t0\t25"] [] "zz"
    "Insufficient fields (1/4 minimum required)"
    (by decide) (by decide) (by decide) (by decide)
  exact ⟨h.1, by simpa using h.2.1, by simpa using h.2.2⟩

/-- C4 counterexample: with strict mode, on the body whose malformed
line `"x"` is the *third* original line (a blank line precedes it), the
batch failure cites `"Line 2:"`, not the original-body line number. -/
theorem C4_linenumber_counterexample :
    parseAttendanceLog 0 "11\t2025-08-27 10:57:49\t0\t25\n\nx"
        { strictMode := some true } =
      { success := false, data := none,
        error := some "Line 2: Insufficient fields (1/4 minimum required)",
        warnings := none } ∧
    jsSplit "11\t2025-08-27 10:57:49\t0\t25\n\nx" '\n' =
      ["11\t2025-08-27 10:57:49\t0\t25", "", "x"] ∧
    strStarts "Line 3:"
      "Line 2: Insufficient fields (1/4 minimum required)" = false :=
  ⟨by decide, by decide, by decide⟩

/-- C4 (amended): in strict mode, a batch whose non-blank trimmed lines
are `g₁ ++ bad :: g₂` with every line of `g₁` parsing successfully and
`bad` failing with error `e` aborts at `bad`: the result is a batch
failure `"Line N: e"` with `N = g₁.length + 1` the 1-based position of
`bad` among the non-blank lines, for *every* suffix `g₂` — the lines
after the failure are not processed. -/
theorem C4_strict_abort (so : Int) (body : String) (opts : ParserOptions)
    (g₁ g₂ : List String) (bad e : String)
    (hstrict : opts.strictMode.getD false = true)
    (hpre : preprocessLines body = g₁ ++ bad :: g₂)
    (hg : ∀ l ∈ g₁,
      (parseSingleAttendanceRecord so (jsTrim l) opts).success = true)
    (hbade : (parseSingleAttendanceRecord so (jsTrim bad) opts).error = some e) :
    parseAttendanceLog so body opts =
      { success := false, data := none,
        error := some (lineErrorMsg (g₁.length + 1) e), warnings := none } := by
  have hne : body ≠ "" := by
    intro he
    rw [he] at hpre
    have hnil : preprocessLines "" = [] := rfl
    rw [hnil] at hpre
    simp at hpre
  obtain ⟨hbne, hbtrim⟩ := preprocess_mem_nonblank
    (show bad ∈ preprocessLines body by
      rw [hpre]; exact List.mem_append_right _ (List.mem_cons_self ..))
  have hgood1 : ∀ l ∈ g₁, jsTrim l ≠ "" ∧
      (parseSingleAttendanceRecord so (jsTrim l) opts).success = true := by
    intro l hl
    exact ⟨(preprocess_mem_nonblank
        (show l ∈ preprocessLines body by
          rw [hpre]; exact List.mem_append_left _ hl)).2,
      hg l hl⟩
  unfold parseAttendanceLog
  rw [if_neg hne, hpre,
    runBatch_append_good so opts g₁ (bad :: g₂) 0 [] [] hgood1]
  simp only [runBatch]
  rw [if_neg hbne, if_neg hbtrim]
  simp only [hbade, hstrict, if_true, Nat.zero_add]

/-- Witness for C4 (amended) on a strict batch with one good line and
then the two-field line `"x\ty"`. -/
theorem C4_strict_abort_witness :
    parseAttendanceLog 0 "11\t2025-08-27 10:57:49\t0\t25\nx\ty"
        { strictMode := some true } =
      { success := false, data := none,
        error := some (lineErrorMsg 2 "Insufficient fields (2/4 minimum required)"),
        warnings := none } := by
  have h := C4_strict_abort 0 "11\t2025-08-27 10:57:49\t0\t25\nx\ty"
    { strictMode := some true } ["11\t2025-08-27 10:57:49\t0\t25"] [] "x\ty"
    "Insufficient fields (2/4 minimum required)"
    (by decide) (by decide) (by decide) (by decide)
  simpa using h

/-- C9: with a non-empty `SN` and an `INFO` value with at least 9 comma
segments, device-info parsing succeeds; the 8 base fields are populated
from positions 0–8, every count segment that fails integer coercion
yields 0 (never failing the parse); with exactly 9 segments all five
extended fields are absent; with more than 9 they are populated from
positions 9–13. -/
theorem C9_device_info (SN INFO : Option String) (sn info : String)
    (hSN : SN = some sn) (hsn : sn ≠ "") (hINFO : INFO = some info)
    (h9 : 9 ≤ (jsSplit info ',').length) :
    (parseDeviceInfo SN INFO).success = true ∧
    ∃ di, (parseDeviceInfo SN INFO).data = some di ∧
      di.serialNumber = sn ∧
      di.model = orDefault (jsSplit info ',')[0]? "" ∧
      di.userCount = jsParseIntOr0 (orDefault (jsSplit info ',')[1]? "0") ∧
      di.fpCount = jsParseIntOr0 (orDefault (jsSplit info ',')[2]? "0") ∧
      di.recordCount = jsParseIntOr0 (orDefault (jsSplit info ',')[3]? "0") ∧
      di.deviceIP = orDefault (jsSplit info ',')[4]? "" ∧
      di.adminCount = jsParseIntOr0 (orDefault (jsSplit info ',')[5]? "0") ∧
      di.passwordCount = jsParseIntOr0 (orDefault (jsSplit info ',')[6]? "0") ∧
      di.cardCount = jsParseIntOr0 (orDefault (jsSplit info ',')[7]? "0") ∧
      di.faceCount = jsParseIntOr0 (orDefault (jsSplit info ',')[8]? "0") ∧
      (jsParseInt (orDefault (jsSplit info ',')[1]? "0") = none →
        di.userCount = 0) ∧
      (jsParseInt (orDefault (jsSplit info ',')[2]? "0") = none →
        di.fpCount = 0) ∧
      (jsParseInt (orDefault (jsSplit info ',')[3]? "0") = none →
        di.recordCount = 0) ∧
      (jsParseInt (orDefault (jsSplit info ',')[5]? "0") = none →
        di.adminCount = 0) ∧
      (jsParseInt (orDefault (jsSplit info ',')[6]? "0") = none →
        di.passwordCount = 0) ∧
      (jsParseInt (orDefault (jsSplit info ',')[7]? "0") = none →
        di.cardCount = 0) ∧
      (jsParseInt (orDefault (jsSplit info ',')[8]? "0") = none →
        di.faceCount = 0) ∧
      ((jsSplit info ',').length = 9 →
        di.firmware = none ∧ di.platform = none ∧ di.fingerVer = none ∧
        di.faceVer = none ∧ di.pushVer = none) ∧
      (9 < (jsSplit info ',').length →
        di.firmware = optStr (jsSplit info ',')[9]? ∧
        di.platform = optStr (jsSplit info ',')[10]? ∧
        di.fingerVer = optStr (jsSplit info ',')[11]? ∧
        di.faceVer = optStr (jsSplit info ',')[12]? ∧
        di.pushVer = optStr (jsSplit info ',')[13]?) := by
  have hSNt : strTruthy (some sn) = true := by
    simpa [strTruthy] using hsn
  have hinfone : info ≠ "" := by
    intro he
    rw [he] at h9
    have hlen1 : (jsSplit "" ',').length = 1 := rfl
    omega
  have hINFOt : strTruthy (some info) = true := by
    simpa [strTruthy] using hinfone
  subst hSN
  subst hINFO
  unfold parseDeviceInfo
  by_cases hgt : 9 < (jsSplit info ',').length
  · simp only [hSNt, hINFOt, Bool.not_true, Bool.false_eq_true,
      if_false, if_true, Option.getD_some, hgt, if_pos]
    refine ⟨by simp, _, rfl, rfl, rfl, rfl, rfl, rfl, rfl, rfl, rfl, rfl, rfl,
      ?_, ?_, ?_, ?_, ?_, ?_, ?_, ?_, ?_⟩
    · intro hz; simp [jsParseIntOr0, hz]
    · intro hz; simp [jsParseIntOr0, hz]
    · intro hz; simp [jsParseIntOr0, hz]
    · intro hz; simp [jsParseIntOr0, hz]
    · intro hz; simp [jsParseIntOr0, hz]
    · intro hz; simp [jsParseIntOr0, hz]
    · intro hz; simp [jsParseIntOr0, hz]
    · intro h9eq; exact absurd h9eq (by omega)
    · intro _; exact ⟨rfl, rfl, rfl, rfl, rfl⟩
  · simp only [hSNt, hINFOt, Bool.not_true, Bool.false_eq_true,
      if_false, if_true, Option.getD_some, hgt]
    refine ⟨by simp, _, rfl, rfl, rfl, rfl, rfl, rfl, rfl, rfl, rfl, rfl, rfl,
      ?_, ?_, ?_, ?_, ?_, ?_, ?_, ?_, ?_⟩
    · intro hz; simp [jsParseIntOr0, hz]
    · intro hz; simp [jsParseIntOr0, hz]
    · intro hz; simp [jsParseIntOr0, hz]
    · intro hz; simp [jsParseIntOr0, hz]
    · intro hz; simp [jsParseIntOr0, hz]
    · intro hz; simp [jsParseIntOr0, hz]
    · intro hz; simp [jsParseIntOr0, hz]
    · intro _; exact ⟨rfl, rfl, rfl, rfl, rfl⟩
    · intro hlt; exact hlt.elim

/-- Witness for C9 at the test suite's concrete query: 9 segments,
base fields populated, extended fields absent. -/
theorem C9_device_info_witness :
    (parseDeviceInfo (some "MED7241100320")
      (some "ZMM720-NF-Ver1.2.7,11,3,7094,192.168.1.14,10,12,12,10")).success
        = true ∧
    (parseDeviceInfo (some "MED7241100320")
      (some "ZMM720-NF-Ver1.2.7,11,3,7094,192.168.1.14,10,12,12,10")).data.map
        DeviceInfo.serialNumber = some "MED7241100320" ∧
    (parseDeviceInfo (some "MED7241100320")
      (some "ZMM720-NF-Ver1.2.7,11,3,7094,192.168.1.14,10,12,12,10")).data.map
        DeviceInfo.model = some "ZMM720-NF-Ver1.2.7" ∧
    (parseDeviceInfo (some "MED7241100320")
      (some "ZMM720-NF-Ver1.2.7,11,3,7094,192.168.1.14,10,12,12,10")).data.map
        DeviceInfo.userCount = some 11 ∧
    (parseDeviceInfo (some "MED7241100320")
      (some "ZMM720-NF-Ver1.2.7,11,3,7094,192.168.1.14,10,12,12,10")).data.map
        DeviceInfo.firmware = some none := by
  have h := C9_device_info (some "MED7241100320")
    (some "ZMM720-NF-Ver1.2.7,11,3,7094,192.168.1.14,10,12,12,10")
    "MED7241100320" "ZMM720-NF-Ver1.2.7,11,3,7094,192.168.1.14,10,12,12,10"
    rfl (by decide) rfl (by decide)
  exact ⟨h.1, by decide, by decide, by decide, by decide⟩

/-- C8: every line splitting into fewer than 4 tab-separated fields
fails with the insufficient-fields message citing the required minimum,
and produces no record payload. -/
theorem C8_insufficient_fields (so : Int) (line : String)
    (opts : ParserOptions) (h : (jsSplit line '\t').length < 4) :
    parseSingleAttendanceRecord so line opts =
      { success := false, data := none,
        error := some (insufficientFieldsMsg (jsSplit line '\t').length),
        warnings := none } := by
  unfold parseSingleAttendanceRecord
  simp [h]

/-- Witness for C8 at the concrete two-field line `"invalid\tdata"`. -/
theorem C8_insufficient_fields_witness :
    (jsSplit "invalid\tdata" '\t').length < 4 ∧
    parseSingleAttendanceRecord 0 "invalid\tdata" {} =
      { success := false, data := none,
        error := some "Insufficient fields (2/4 minimum required)",
        warnings := none } :=
  ⟨by decide, by
    rw [C8_insufficient_fields 0 "invalid\tdata" {} (by decide)]
    decide⟩

end ZKIClock
